import Mathlib

/-!
Shallow embedding of the retry-engine crate (circuit breaker, retry policy,
dead-letter queue and the gRPC orchestrator from `server.rs`).

Modelling conventions:
  * Wall-clock reads (`current_timestamp_ms()`) become an explicit `now : Nat`
    parameter; `u32`/`u64` counters become `Nat` (every increment in the code
    is bounded by a configured threshold, far below the wrap-around point, as
    the proofs make explicit).
  * `f64` arithmetic in the retry policy is modelled as exact rational
    arithmetic over `ℚ`; the Rust `as u64` conversion (truncation towards
    zero, saturating at 0 for negative inputs) is `Nat.floor` on `ℚ`.
  * The random draws inside `add_jitter` become explicit oracle parameters
    (a magnitude and a sign), constrained by the same range the `rand` calls
    guarantee.
  * `HashMap<String, _>` registries become association lists where insertion
    replaces every previous binding of the key, mirroring
    `HashMap::insert`'s replace-on-duplicate semantics.
-/

namespace RetryEngine

/-- `CircuitState` from `circuit_breaker.rs`. -/
inductive CircuitState
  | Closed
  | Open
  | HalfOpen
  deriving DecidableEq, Repr

/-- `CircuitBreakerConfig` from `lib.rs`. -/
structure CircuitBreakerConfig where
  failure_threshold : Nat
  success_threshold : Nat
  timeout_duration_ms : Nat
  deriving DecidableEq, Repr

/-- `CircuitBreakerState` from `circuit_breaker.rs`. -/
structure CircuitBreakerState where
  state : CircuitState
  failure_count : Nat
  success_count : Nat
  last_failure_at_ms : Nat
  next_attempt_at_ms : Nat
  deriving DecidableEq, Repr

/-- `CircuitBreakerState::default()`: Closed with all counters and
timestamps zero. -/
def CircuitBreakerState.init : CircuitBreakerState :=
  { state := CircuitState.Closed
    failure_count := 0
    success_count := 0
    last_failure_at_ms := 0
    next_attempt_at_ms := 0 }

namespace CircuitBreaker

/-- `CircuitBreaker::can_proceed`, with the clock read passed in as `now`.
Returns the boolean answer together with the (possibly mutated) state:
in Open, `now >= next_attempt_at_ms` transitions to HalfOpen, resets
`success_count` and answers true, otherwise answers false; Closed and
HalfOpen always answer true unchanged. -/
def can_proceed (s : CircuitBreakerState) (now : Nat) : Bool × CircuitBreakerState :=
  match s.state with
  | CircuitState.Closed => (true, s)
  | CircuitState.Open =>
      if s.next_attempt_at_ms ≤ now then
        (true, { s with state := CircuitState.HalfOpen, success_count := 0 })
      else
        (false, s)
  | CircuitState.HalfOpen => (true, s)

/-- `CircuitBreaker::record_success`. -/
def record_success (cfg : CircuitBreakerConfig) (s : CircuitBreakerState) :
    CircuitBreakerState :=
  match s.state with
  | CircuitState.Closed => { s with failure_count := 0 }
  | CircuitState.HalfOpen =>
      if cfg.success_threshold ≤ s.success_count + 1 then
        { s with state := CircuitState.Closed, failure_count := 0, success_count := 0 }
      else
        { s with success_count := s.success_count + 1 }
  | CircuitState.Open =>
      { s with state := CircuitState.Closed, failure_count := 0, success_count := 0 }

/-- `CircuitBreaker::record_failure`, with the clock read passed in as
`now`. Always stamps `last_failure_at_ms := now` first, then branches on
the state exactly as the Rust `match`. -/
def record_failure (cfg : CircuitBreakerConfig) (s : CircuitBreakerState)
    (now : Nat) : CircuitBreakerState :=
  let s1 := { s with last_failure_at_ms := now }
  match s1.state with
  | CircuitState.Closed =>
      if cfg.failure_threshold ≤ s1.failure_count + 1 then
        { s1 with
            state := CircuitState.Open
            failure_count := s1.failure_count + 1
            next_attempt_at_ms := now + cfg.timeout_duration_ms }
      else
        { s1 with failure_count := s1.failure_count + 1 }
  | CircuitState.HalfOpen =>
      { s1 with
          state := CircuitState.Open
          failure_count := cfg.failure_threshold
          success_count := 0
          next_attempt_at_ms := now + cfg.timeout_duration_ms }
  | CircuitState.Open =>
      { s1 with next_attempt_at_ms := now + cfg.timeout_duration_ms }

/-- Iterate `record_failure` from the fresh state: `iter_failures cfg f k`
is the state after failures `1..k`, the `i`-th recorded at time `f i`. -/
def iter_failures (cfg : CircuitBreakerConfig) (f : Nat → Nat) :
    Nat → CircuitBreakerState
  | 0 => CircuitBreakerState.init
  | n + 1 => record_failure cfg (iter_failures cfg f n) (f (n + 1))

/-- Iterate `record_success` `k` times from a given state. -/
def iter_successes (cfg : CircuitBreakerConfig) (s : CircuitBreakerState) :
    Nat → CircuitBreakerState
  | 0 => s
  | n + 1 => record_success cfg (iter_successes cfg s n)

/-- One external event on a breaker: the gating query or one of the three
mutators (`reset` restores the default state). -/
inductive Event
  | proceed (now : Nat)
  | success
  | failure (now : Nat)
  | reset
  deriving DecidableEq, Repr

/-- Apply one event to a breaker state. -/
def apply_event (cfg : CircuitBreakerConfig) (s : CircuitBreakerState) :
    Event → CircuitBreakerState
  | Event.proceed now => (can_proceed s now).2
  | Event.success => record_success cfg s
  | Event.failure now => record_failure cfg s now
  | Event.reset => CircuitBreakerState.init

/-- Run a sequence of events from the fresh (default) breaker state. -/
def run_events (cfg : CircuitBreakerConfig) (events : List Event) :
    CircuitBreakerState :=
  events.foldl (apply_event cfg) CircuitBreakerState.init

end CircuitBreaker

/-- `RetryConfig` from `lib.rs`; the `f64` multiplier is modelled as an
exact rational. -/
structure RetryConfig where
  max_attempts : Nat
  initial_delay_ms : Nat
  max_delay_ms : Nat
  backoff_multiplier : ℚ
  jitter : Bool
  deriving DecidableEq, Repr

namespace RetryPolicy

/-- `RetryPolicy::should_retry`: true iff `attempt < max_attempts`. -/
def should_retry (c : RetryConfig) (attempt : Nat) : Bool :=
  attempt < c.max_attempts

/-- The wrapping `as i32` cast applied to a `u32` value: reduce mod
`2^32`, then reinterpret values at or above `2^31` as negative. -/
def as_i32 (n : Nat) : Int :=
  if n % 2 ^ 32 < 2 ^ 31 then ((n % 2 ^ 32 : Nat) : Int)
  else ((n % 2 ^ 32 : Nat) : Int) - 2 ^ 32

/-- The exponent handed to `powi` in `calculate_delay`:
`(attempt - 1) as i32`, which wraps to a negative value for
`attempt - 1 ≥ 2^31`. -/
def powi_exponent (attempt : Nat) : Int :=
  as_i32 (attempt - 1)

/-- The un-jittered capped delay for `attempt ≥ 1`:
`(initial_delay_ms as f64 * multiplier.powi((attempt - 1) as i32)).min(max_delay_ms as f64) as u64`,
with `f64` as `ℚ` (so `powi` is `zpow`, reciprocal powers for the wrapped
negative exponents) and `as u64` as `Nat.floor`. -/
def capped_delay (c : RetryConfig) (attempt : Nat) : Nat :=
  ⌊min ((c.initial_delay_ms : ℚ) * c.backoff_multiplier ^ powi_exponent attempt)
      ((c.max_delay_ms : ℚ))⌋₊

/-- The jitter magnitude bound in `add_jitter`:
`(delay as f64 * 0.2) as u64`. -/
def jitter_range (delay : Nat) : Nat :=
  ⌊(delay : ℚ) * (2 / 10 : ℚ)⌋₊

/-- `RetryPolicy::add_jitter` with the two random draws made explicit:
`magnitude` is the value drawn from `0..=jitter_range delay` and `addSign`
the fair coin choosing between saturating add and saturating sub
(`Nat` subtraction is saturating). -/
def add_jitter (delay : Nat) (magnitude : Nat) (addSign : Bool) : Nat :=
  if addSign then delay + magnitude else delay - magnitude

/-- `RetryPolicy::calculate_delay` with the jitter draws made explicit
(they are ignored when `attempt = 0` or jitter is disabled). -/
def calculate_delay (c : RetryConfig) (attempt : Nat) (magnitude : Nat)
    (addSign : Bool) : Nat :=
  if attempt = 0 then 0
  else
    let capped := capped_delay c attempt
    let withJitter := if c.jitter then add_jitter capped magnitude addSign else capped
    min withJitter c.max_delay_ms

end RetryPolicy

/-- `DLQEntry` from `dlq.rs` (payload bytes as a list of naturals). -/
structure DLQEntry where
  transaction_id : String
  psp_name : String
  payload : List Nat
  attempt_count : Nat
  last_error : String
  timestamp_ms : Nat
  deriving DecidableEq, Repr

/-- A string-keyed registry: `HashMap<String, α>` modelled as an
association list in which an insert replaces every binding of its key. -/
abbrev Registry (α : Type) : Type := List (String × α)

namespace Registry

/-- `HashMap::get` (first — and, by construction, only — binding). -/
def lookup {α : Type} (m : Registry α) (k : String) : Option α :=
  (List.find? (fun p => p.1 == k) m).map (fun p => p.2)

/-- `HashMap::insert`: bind `k` to `v`, dropping any previous binding. -/
def insert {α : Type} (m : Registry α) (k : String) (v : α) : Registry α :=
  (k, v) :: List.filter (fun p => !(p.1 == k)) m

/-- `HashMap::len`. -/
def size {α : Type} (m : Registry α) : Nat :=
  List.length m

/-- Number of bindings a key has in the registry (1 or 0 for maps built
by `insert`). -/
def keyCount {α : Type} (m : Registry α) (k : String) : Nat :=
  List.length (List.filter (fun p => p.1 == k) m)

end Registry

/-- `DeadLetterQueue` from `dlq.rs`: the mutex-guarded
`HashMap<String, DLQEntry>` keyed by `transaction_id`. -/
abbrev DeadLetterQueue : Type := Registry DLQEntry

namespace DeadLetterQueue

/-- `DeadLetterQueue::new()`. -/
def empty : DeadLetterQueue := []

/-- `DeadLetterQueue::add_entry`: `entries.insert(entry.transaction_id, entry)`. -/
def add_entry (q : DeadLetterQueue) (e : DLQEntry) : DeadLetterQueue :=
  Registry.insert q e.transaction_id e

/-- `DeadLetterQueue::get_entry`. -/
def get_entry (q : DeadLetterQueue) (tid : String) : Option DLQEntry :=
  Registry.lookup q tid

/-- `DeadLetterQueue::contains`. -/
def containsTid (q : DeadLetterQueue) (tid : String) : Bool :=
  (Registry.lookup q tid).isSome

/-- `DeadLetterQueue::count`. -/
def count (q : DeadLetterQueue) : Nat :=
  Registry.size q

/-- The store reached from `new()` by a sequence of `add_entry` calls. -/
def ofInserts (es : List DLQEntry) : DeadLetterQueue :=
  es.foldl add_entry empty

end DeadLetterQueue

/-- `RetryState` from `server.rs`. -/
structure RetryState where
  attempt_count : Nat
  last_error : String
  last_attempt_at_ms : Nat
  deriving DecidableEq, Repr

/-- The fields of the `RetryRequest` protobuf message that
`schedule_retry` reads. -/
structure RetryRequest where
  transaction_id : String
  psp_name : String
  attempt_number : Nat
  payload : List Nat
  deriving DecidableEq, Repr

/-- The `RetryResponse` protobuf message. -/
structure RetryResponse where
  retry_id : String
  scheduled : Bool
  next_retry_at_ms : Nat
  message : String
  deriving DecidableEq, Repr

/-- The mutable state owned by `RetryEngineService`: the per-provider
breaker registry, the dead-letter queue and the in-flight retry states. -/
structure ServiceState where
  circuit_breakers : Registry CircuitBreakerState
  dlq : DeadLetterQueue
  retry_states : Registry RetryState
  deriving DecidableEq, Repr

namespace RetryEngineService

/-- The service state right after `RetryEngineService::new`. -/
def initState : ServiceState :=
  { circuit_breakers := []
    dlq := DeadLetterQueue.empty
    retry_states := [] }

/-- `RetryEngineService::get_or_create_circuit_breaker`, as the state the
registry holds for the provider (a fresh default breaker when unseen). -/
def breaker_for (σ : ServiceState) (psp : String) : CircuitBreakerState :=
  (Registry.lookup σ.circuit_breakers psp).getD CircuitBreakerState.init

/-- `RetryEngineService::schedule_retry` from `server.rs`, with the clock
read as `now` and the jitter draws as explicit oracles. Returns the
response together with the service state after the call. The breaker write
back into the registry models the `Arc`-shared mutation performed through
the cloned handle. -/
def schedule_retry (rc : RetryConfig) (σ : ServiceState) (req : RetryRequest)
    (now : Nat) (magnitude : Nat) (addSign : Bool) :
    RetryResponse × ServiceState :=
  if DeadLetterQueue.containsTid σ.dlq req.transaction_id then
    ({ retry_id := req.transaction_id
       scheduled := false
       next_retry_at_ms := 0
       message := "Transaction already in dead letter queue" }, σ)
  else
    let cb := breaker_for σ req.psp_name
    let pr := CircuitBreaker.can_proceed cb now
    let σ1 := { σ with
      circuit_breakers := Registry.insert σ.circuit_breakers req.psp_name pr.2 }
    if !pr.1 then
      ({ retry_id := req.transaction_id
         scheduled := false
         next_retry_at_ms := 0
         message := "Circuit breaker open for PSP: " ++ req.psp_name }, σ1)
    else if !(RetryPolicy.should_retry rc req.attempt_number) then
      let e : DLQEntry :=
        { transaction_id := req.transaction_id
          psp_name := req.psp_name
          payload := req.payload
          attempt_count := req.attempt_number
          last_error := "Max retry attempts exceeded"
          timestamp_ms := now }
      ({ retry_id := req.transaction_id
         scheduled := false
         next_retry_at_ms := 0
         message := "Max retries exceeded, moved to DLQ" },
       { σ1 with dlq := DeadLetterQueue.add_entry σ1.dlq e })
    else
      let delay := RetryPolicy.calculate_delay rc req.attempt_number magnitude addSign
      let rs : RetryState :=
        { attempt_count := req.attempt_number
          last_error := ""
          last_attempt_at_ms := now }
      ({ retry_id := req.transaction_id
         scheduled := true
         next_retry_at_ms := now + delay
         message := "Retry scheduled for attempt " ++ toString (req.attempt_number + 1) },
       { σ1 with retry_states := Registry.insert σ1.retry_states req.transaction_id rs })

end RetryEngineService

namespace CircuitBreaker

/-- Failures `1..k` from the fresh state, `k` strictly below the
threshold: the breaker is still Closed and counts exactly `k` failures. -/
lemma iter_failures_below_threshold (cfg : CircuitBreakerConfig) (f : Nat → Nat) :
    ∀ k, k < cfg.failure_threshold →
      (iter_failures cfg f k).state = CircuitState.Closed ∧
        (iter_failures cfg f k).failure_count = k := by
  intro k
  induction k with
  | zero => intro _; exact ⟨rfl, rfl⟩
  | succ n ih =>
      intro hk
      obtain ⟨hst, hfc⟩ := ih (Nat.lt_of_succ_lt hk)
      unfold iter_failures record_failure
      simp only [hst, hfc]
      have hlt : ¬ cfg.failure_threshold ≤ n + 1 := Nat.not_le_of_lt hk
      simp [hlt]

/-- Successes from a HalfOpen state: while the running count stays below
the threshold, the breaker remains HalfOpen and only `success_count`
moves. -/
lemma iter_successes_below_threshold (cfg : CircuitBreakerConfig)
    (s : CircuitBreakerState) (hs : s.state = CircuitState.HalfOpen) :
    ∀ k, s.success_count + k < cfg.success_threshold →
      iter_successes cfg s k = { s with success_count := s.success_count + k } := by
  intro k
  induction k with
  | zero => intro _; simp [iter_successes]
  | succ n ih =>
      intro hk
      have hn : s.success_count + n < cfg.success_threshold := by omega
      unfold iter_successes record_success
      rw [ih hn]
      simp only [hs]
      have hlt : ¬ cfg.success_threshold ≤ s.success_count + n + 1 := by omega
      simp [hlt]
      omega

end CircuitBreaker

/-- Claim C1: for every `failure_threshold = N ≥ 1`, a fresh breaker fed
only `record_failure` calls (the `i`-th at time `f i`) stays Closed after
failures `1..N-1`, carries `failure_count = k` after the `k`-th failure,
and transitions to Open exactly on the `N`-th failure, at which point
`next_attempt_at_ms` is the time of that failure plus
`timeout_duration_ms`. -/
theorem claim_C1 (cfg : CircuitBreakerConfig) (f : Nat → Nat)
    (hN : 1 ≤ cfg.failure_threshold) :
    (∀ k, k < cfg.failure_threshold →
        (CircuitBreaker.iter_failures cfg f k).state = CircuitState.Closed ∧
          (CircuitBreaker.iter_failures cfg f k).failure_count = k) ∧
      (CircuitBreaker.iter_failures cfg f cfg.failure_threshold).state
          = CircuitState.Open ∧
      (CircuitBreaker.iter_failures cfg f cfg.failure_threshold).failure_count
          = cfg.failure_threshold ∧
      (CircuitBreaker.iter_failures cfg f cfg.failure_threshold).next_attempt_at_ms
          = f cfg.failure_threshold + cfg.timeout_duration_ms := by
  refine ⟨CircuitBreaker.iter_failures_below_threshold cfg f, ?_⟩
  obtain ⟨m, hm⟩ : ∃ m, cfg.failure_threshold = m + 1 :=
    ⟨cfg.failure_threshold - 1, by omega⟩
  obtain ⟨hst, hfc⟩ := CircuitBreaker.iter_failures_below_threshold cfg f m
    (by omega)
  rw [hm]
  unfold CircuitBreaker.iter_failures CircuitBreaker.record_failure
  simp only [hst, hfc]
  have hge : cfg.failure_threshold ≤ m + 1 := by omega
  simp [hge, hm]

/-- Claim C1 witness: threshold 3, failures at times `100·i`. -/
theorem claim_C1_witness :
    ((CircuitBreaker.iter_failures
        { failure_threshold := 3, success_threshold := 2, timeout_duration_ms := 1000 }
        (fun n => 100 * n) 2).state = CircuitState.Closed ∧
      (CircuitBreaker.iter_failures
        { failure_threshold := 3, success_threshold := 2, timeout_duration_ms := 1000 }
        (fun n => 100 * n) 2).failure_count = 2) ∧
    (CircuitBreaker.iter_failures
        { failure_threshold := 3, success_threshold := 2, timeout_duration_ms := 1000 }
        (fun n => 100 * n) 3).state = CircuitState.Open ∧
    (CircuitBreaker.iter_failures
        { failure_threshold := 3, success_threshold := 2, timeout_duration_ms := 1000 }
        (fun n => 100 * n) 3).failure_count = 3 ∧
    (CircuitBreaker.iter_failures
        { failure_threshold := 3, success_threshold := 2, timeout_duration_ms := 1000 }
        (fun n => 100 * n) 3).next_attempt_at_ms = 1300 := by
  have h := claim_C1
    { failure_threshold := 3, success_threshold := 2, timeout_duration_ms := 1000 }
    (fun n => 100 * n) (by decide)
  exact ⟨h.1 2 (by decide), h.2.1, h.2.2.1, h.2.2.2⟩

/-- Claim C2: `can_proceed` in Open returns false and leaves the state
unchanged strictly before `next_attempt_at_ms`, and at or after it
returns true, moving to HalfOpen with `success_count` reset; in Closed
and HalfOpen it returns true with no state change. -/
theorem claim_C2 (s : CircuitBreakerState) (now : Nat) :
    (s.state = CircuitState.Closed →
        CircuitBreaker.can_proceed s now = (true, s)) ∧
    (s.state = CircuitState.HalfOpen →
        CircuitBreaker.can_proceed s now = (true, s)) ∧
    (s.state = CircuitState.Open → now < s.next_attempt_at_ms →
        CircuitBreaker.can_proceed s now = (false, s)) ∧
    (s.state = CircuitState.Open → s.next_attempt_at_ms ≤ now →
        CircuitBreaker.can_proceed s now =
          (true, { s with state := CircuitState.HalfOpen, success_count := 0 })) := by
  refine ⟨?_, ?_, ?_, ?_⟩
  · intro h; simp [CircuitBreaker.can_proceed, h]
  · intro h; simp [CircuitBreaker.can_proceed, h]
  · intro h hlt
    have : ¬ s.next_attempt_at_ms ≤ now := by omega
    simp [CircuitBreaker.can_proceed, h, this]
  · intro h hle
    simp [CircuitBreaker.can_proceed, h, hle]

/-- Claim C2 witness: an Open breaker with `next_attempt_at_ms = 8`,
probed at times 5 (blocked) and 10 (half-opens). -/
theorem claim_C2_witness :
    CircuitBreaker.can_proceed
        { state := CircuitState.Open, failure_count := 2, success_count := 0,
          last_failure_at_ms := 3, next_attempt_at_ms := 8 } 5 =
      (false,
        { state := CircuitState.Open, failure_count := 2, success_count := 0,
          last_failure_at_ms := 3, next_attempt_at_ms := 8 }) ∧
    CircuitBreaker.can_proceed
        { state := CircuitState.Open, failure_count := 2, success_count := 0,
          last_failure_at_ms := 3, next_attempt_at_ms := 8 } 10 =
      (true,
        { state := CircuitState.HalfOpen, failure_count := 2, success_count := 0,
          last_failure_at_ms := 3, next_attempt_at_ms := 8 }) := by
  constructor
  · exact (claim_C2
      { state := CircuitState.Open, failure_count := 2, success_count := 0,
        last_failure_at_ms := 3, next_attempt_at_ms := 8 } 5).2.2.1 rfl (by decide)
  · exact (claim_C2
      { state := CircuitState.Open, failure_count := 2, success_count := 0,
        last_failure_at_ms := 3, next_attempt_at_ms := 8 } 10).2.2.2 rfl (by decide)

/-- Claim C3: in HalfOpen, one `record_failure` reopens the breaker no
matter how many successes were accumulated: state Open, `failure_count`
pinned to the threshold, `success_count` reset to 0,
`next_attempt_at_ms = now + timeout_duration_ms`, `last_failure_at_ms = now`. -/
theorem claim_C3 (cfg : CircuitBreakerConfig) (s : CircuitBreakerState)
    (now : Nat) (h : s.state = CircuitState.HalfOpen) :
    CircuitBreaker.record_failure cfg s now =
      { state := CircuitState.Open
        failure_count := cfg.failure_threshold
        success_count := 0
        last_failure_at_ms := now
        next_attempt_at_ms := now + cfg.timeout_duration_ms } := by
  obtain ⟨st, fc, sc, lf, na⟩ := s
  cases h
  rfl

/-- Claim C3 witness: a HalfOpen breaker with 7 accumulated successes
fails once at time 50 under threshold 4 and timeout 100. -/
theorem claim_C3_witness :
    CircuitBreaker.record_failure
        { failure_threshold := 4, success_threshold := 9, timeout_duration_ms := 100 }
        { state := CircuitState.HalfOpen, failure_count := 1, success_count := 7,
          last_failure_at_ms := 2, next_attempt_at_ms := 3 } 50 =
      { state := CircuitState.Open, failure_count := 4, success_count := 0,
        last_failure_at_ms := 50, next_attempt_at_ms := 150 } :=
  claim_C3
    { failure_threshold := 4, success_threshold := 9, timeout_duration_ms := 100 }
    { state := CircuitState.HalfOpen, failure_count := 1, success_count := 7,
      last_failure_at_ms := 2, next_attempt_at_ms := 3 } 50 rfl

/-- Claim C4: `record_success` resets `failure_count` in Closed without a
state change, counts successes in HalfOpen and closes the breaker with
both counters zeroed when the success threshold is reached, and in Open
defensively resets to Closed with zeroed counters; consequently
`success_threshold` consecutive successes from a fresh HalfOpen state
close the breaker. -/
theorem claim_C4 (cfg : CircuitBreakerConfig) (s : CircuitBreakerState) :
    (s.state = CircuitState.Closed →
        CircuitBreaker.record_success cfg s = { s with failure_count := 0 }) ∧
    (s.state = CircuitState.Open →
        CircuitBreaker.record_success cfg s =
          { s with state := CircuitState.Closed, failure_count := 0,
                   success_count := 0 }) ∧
    (s.state = CircuitState.HalfOpen →
        cfg.success_threshold ≤ s.success_count + 1 →
        CircuitBreaker.record_success cfg s =
          { s with state := CircuitState.Closed, failure_count := 0,
                   success_count := 0 }) ∧
    (s.state = CircuitState.HalfOpen →
        s.success_count + 1 < cfg.success_threshold →
        CircuitBreaker.record_success cfg s =
          { s with success_count := s.success_count + 1 }) ∧
    (s.state = CircuitState.HalfOpen → s.success_count = 0 →
        1 ≤ cfg.success_threshold →
        CircuitBreaker.iter_successes cfg s cfg.success_threshold =
          { s with state := CircuitState.Closed, failure_count := 0,
                   success_count := 0 }) := by
  refine ⟨?_, ?_, ?_, ?_, ?_⟩
  · intro h; simp [CircuitBreaker.record_success, h]
  · intro h; simp [CircuitBreaker.record_success, h]
  · intro h hge; simp [CircuitBreaker.record_success, h, hge]
  · intro h hlt
    have : ¬ cfg.success_threshold ≤ s.success_count + 1 := by omega
    simp [CircuitBreaker.record_success, h, this]
  · intro h hsc hth
    obtain ⟨m, hm⟩ : ∃ m, cfg.success_threshold = m + 1 :=
      ⟨cfg.success_threshold - 1, by omega⟩
    have hbelow := CircuitBreaker.iter_successes_below_threshold cfg s h m
      (by omega)
    rw [hm]
    unfold CircuitBreaker.iter_successes CircuitBreaker.record_success
    rw [hbelow]
    simp only [h]
    have hge : cfg.success_threshold ≤ s.success_count + m + 1 := by omega
    simp [hge]

/-- Claim C4 witness: threshold 2; the Closed, Open, at-threshold
HalfOpen, below-threshold HalfOpen and two-consecutive-successes cases
at concrete states. -/
theorem claim_C4_witness :
    CircuitBreaker.record_success
        { failure_threshold := 3, success_threshold := 2, timeout_duration_ms := 10 }
        { state := CircuitState.Closed, failure_count := 2, success_count := 0,
          last_failure_at_ms := 4, next_attempt_at_ms := 0 } =
      { state := CircuitState.Closed, failure_count := 0, success_count := 0,
        last_failure_at_ms := 4, next_attempt_at_ms := 0 } ∧
    CircuitBreaker.record_success
        { failure_threshold := 3, success_threshold := 2, timeout_duration_ms := 10 }
        { state := CircuitState.Open, failure_count := 3, success_count := 0,
          last_failure_at_ms := 4, next_attempt_at_ms := 14 } =
      { state := CircuitState.Closed, failure_count := 0, success_count := 0,
        last_failure_at_ms := 4, next_attempt_at_ms := 14 } ∧
    CircuitBreaker.record_success
        { failure_threshold := 3, success_threshold := 2, timeout_duration_ms := 10 }
        { state := CircuitState.HalfOpen, failure_count := 3, success_count := 1,
          last_failure_at_ms := 4, next_attempt_at_ms := 14 } =
      { state := CircuitState.Closed, failure_count := 0, success_count := 0,
        last_failure_at_ms := 4, next_attempt_at_ms := 14 } ∧
    CircuitBreaker.record_success
        { failure_threshold := 3, success_threshold := 2, timeout_duration_ms := 10 }
        { state := CircuitState.HalfOpen, failure_count := 3, success_count := 0,
          last_failure_at_ms := 4, next_attempt_at_ms := 14 } =
      { state := CircuitState.HalfOpen, failure_count := 3, success_count := 1,
        last_failure_at_ms := 4, next_attempt_at_ms := 14 } ∧
    CircuitBreaker.iter_successes
        { failure_threshold := 3, success_threshold := 2, timeout_duration_ms := 10 }
        { state := CircuitState.HalfOpen, failure_count := 3, success_count := 0,
          last_failure_at_ms := 4, next_attempt_at_ms := 14 } 2 =
      { state := CircuitState.Closed, failure_count := 0, success_count := 0,
        last_failure_at_ms := 4, next_attempt_at_ms := 14 } := by
  refine ⟨?_, ?_, ?_, ?_, ?_⟩
  · exact (claim_C4
      { failure_threshold := 3, success_threshold := 2, timeout_duration_ms := 10 }
      { state := CircuitState.Closed, failure_count := 2, success_count := 0,
        last_failure_at_ms := 4, next_attempt_at_ms := 0 }).1 rfl
  · exact (claim_C4
      { failure_threshold := 3, success_threshold := 2, timeout_duration_ms := 10 }
      { state := CircuitState.Open, failure_count := 3, success_count := 0,
        last_failure_at_ms := 4, next_attempt_at_ms := 14 }).2.1 rfl
  · exact (claim_C4
      { failure_threshold := 3, success_threshold := 2, timeout_duration_ms := 10 }
      { state := CircuitState.HalfOpen, failure_count := 3, success_count := 1,
        last_failure_at_ms := 4, next_attempt_at_ms := 14 }).2.2.1 rfl (by decide)
  · exact (claim_C4
      { failure_threshold := 3, success_threshold := 2, timeout_duration_ms := 10 }
      { state := CircuitState.HalfOpen, failure_count := 3, success_count := 0,
        last_failure_at_ms := 4, next_attempt_at_ms := 14 }).2.2.2.1 rfl (by decide)
  · exact (claim_C4
      { failure_threshold := 3, success_threshold := 2, timeout_duration_ms := 10 }
      { state := CircuitState.HalfOpen, failure_count := 3, success_count := 0,
        last_failure_at_ms := 4, next_attempt_at_ms := 14 }).2.2.2.2 rfl rfl
      (by decide)

namespace CircuitBreaker

/-- The strengthened reachable-state invariant: in Closed the success
counter is zero and (for a positive threshold) the failure counter is
strictly below it; in Open the success counter is zero and (for a
positive threshold) the failure counter sits exactly at it. -/
def Inv (cfg : CircuitBreakerConfig) (s : CircuitBreakerState) : Prop :=
  (s.state = CircuitState.Closed →
      s.success_count = 0 ∧
        (1 ≤ cfg.failure_threshold → s.failure_count < cfg.failure_threshold)) ∧
  (s.state = CircuitState.Open →
      s.success_count = 0 ∧
        (1 ≤ cfg.failure_threshold → s.failure_count = cfg.failure_threshold))

lemma inv_init (cfg : CircuitBreakerConfig) : Inv cfg CircuitBreakerState.init := by
  constructor
  · intro _; exact ⟨rfl, fun h => h⟩
  · intro h; cases h

/-- Every single event preserves the invariant. -/
lemma inv_apply_event (cfg : CircuitBreakerConfig) (s : CircuitBreakerState)
    (e : Event) (h : Inv cfg s) : Inv cfg (apply_event cfg s e) := by
  obtain ⟨st, fc, sc, lf, na⟩ := s
  obtain ⟨hC, hO⟩ := h
  simp only [Inv] at hC hO ⊢
  cases e <;> cases st <;>
    simp_all [apply_event, can_proceed, record_success, record_failure,
      CircuitBreakerState.init] <;>
    (try split_ifs) <;> (try simp_all) <;> omega

/-- The invariant holds after any event sequence from any state
satisfying it. -/
lemma inv_foldl (cfg : CircuitBreakerConfig) (events : List Event) :
    ∀ s, Inv cfg s → Inv cfg (events.foldl (apply_event cfg) s) := by
  induction events with
  | nil => intro s h; exact h
  | cons e rest ih =>
      intro s h
      exact ih (apply_event cfg s e) (inv_apply_event cfg s e h)

lemma inv_run_events (cfg : CircuitBreakerConfig) (events : List Event) :
    Inv cfg (run_events cfg events) :=
  inv_foldl cfg events CircuitBreakerState.init (inv_init cfg)

end CircuitBreaker

/-- Claim C10: in every state reachable from the fresh breaker by any
sequence of `can_proceed`, `record_success`, `record_failure` and `reset`
calls, `success_count = 0` whenever the state is Closed or Open, and —
provided `failure_threshold ≥ 1` — `failure_count` equals exactly
`failure_threshold` whenever the state is Open. -/
theorem claim_C10 (cfg : CircuitBreakerConfig)
    (events : List CircuitBreaker.Event) :
    ((CircuitBreaker.run_events cfg events).state = CircuitState.Closed ∨
        (CircuitBreaker.run_events cfg events).state = CircuitState.Open →
      (CircuitBreaker.run_events cfg events).success_count = 0) ∧
    (1 ≤ cfg.failure_threshold →
      (CircuitBreaker.run_events cfg events).state = CircuitState.Open →
      (CircuitBreaker.run_events cfg events).failure_count
        = cfg.failure_threshold) := by
  obtain ⟨hC, hO⟩ := CircuitBreaker.inv_run_events cfg events
  constructor
  · rintro (h | h)
    · exact (hC h).1
    · exact (hO h).1
  · intro hth h
    exact (hO h).2 hth

/-- Claim C10 witness: threshold 2, a probe and two failures reach Open
with `failure_count = 2` and `success_count = 0`. -/
theorem claim_C10_witness :
    (CircuitBreaker.run_events
        { failure_threshold := 2, success_threshold := 2, timeout_duration_ms := 1000 }
        [CircuitBreaker.Event.proceed 1, CircuitBreaker.Event.failure 5,
         CircuitBreaker.Event.failure 7]).success_count = 0 ∧
    (CircuitBreaker.run_events
        { failure_threshold := 2, success_threshold := 2, timeout_duration_ms := 1000 }
        [CircuitBreaker.Event.proceed 1, CircuitBreaker.Event.failure 5,
         CircuitBreaker.Event.failure 7]).failure_count = 2 := by
  constructor
  · exact (claim_C10
      { failure_threshold := 2, success_threshold := 2, timeout_duration_ms := 1000 }
      [CircuitBreaker.Event.proceed 1, CircuitBreaker.Event.failure 5,
       CircuitBreaker.Event.failure 7]).1 (Or.inr (by decide))
  · exact (claim_C10
      { failure_threshold := 2, success_threshold := 2, timeout_duration_ms := 1000 }
      [CircuitBreaker.Event.proceed 1, CircuitBreaker.Event.failure 5,
       CircuitBreaker.Event.failure 7]).2 (by decide) (by decide)

namespace RetryPolicy

/-- The capped delay never exceeds `max_delay_ms`. -/
lemma capped_delay_le_max (c : RetryConfig) (attempt : Nat) :
    capped_delay c attempt ≤ c.max_delay_ms := by
  unfold capped_delay
  calc ⌊min ((c.initial_delay_ms : ℚ) * c.backoff_multiplier ^ powi_exponent attempt)
        ((c.max_delay_ms : ℚ))⌋₊
      ≤ ⌊((c.max_delay_ms : ℚ))⌋₊ := Nat.floor_mono (min_le_right _ _)
    _ = c.max_delay_ms := Nat.floor_natCast _

/-- Below `2^31 + 1` attempts the `as i32` cast does not wrap and the
exponent is just `attempt - 1`. -/
lemma powi_exponent_of_le (attempt : Nat) (hw : attempt ≤ 2 ^ 31) :
    powi_exponent attempt = ((attempt - 1 : Nat) : Int) := by
  unfold powi_exponent as_i32
  rw [Nat.mod_eq_of_lt (by omega), if_pos (by omega : attempt - 1 < 2 ^ 31)]

/-- In the non-wrapping range the capped delay is the spec's formula:
`min(initial_delay · multiplier^(attempt-1), max_delay)` truncated. -/
lemma capped_delay_eq_of_le (c : RetryConfig) (attempt : Nat)
    (hw : attempt ≤ 2 ^ 31) :
    capped_delay c attempt =
      ⌊min ((c.initial_delay_ms : ℚ) * c.backoff_multiplier ^ (attempt - 1))
          ((c.max_delay_ms : ℚ))⌋₊ := by
  unfold capped_delay
  rw [powi_exponent_of_le attempt hw, zpow_natCast]

/-- The `(delay as f64 * 0.2) as u64` jitter bound is integer division
by five. -/
lemma jitter_range_eq (d : Nat) : jitter_range d = d / 5 := by
  unfold jitter_range
  rw [show (2 / 10 : ℚ) = 1 / 5 by norm_num, mul_one_div]
  rw [show ((5 : ℚ)) = ((5 : Nat) : ℚ) by norm_num]
  rw [Nat.floor_div_nat ((d : ℚ)) 5]
  simp

/-- The configuration of end-to-end scenario A. -/
def scenarioA : RetryConfig :=
  { max_attempts := 3
    initial_delay_ms := 1000
    max_delay_ms := 10000
    backoff_multiplier := 2
    jitter := false }

end RetryPolicy

namespace RetryPolicy

/-- At `attempt = 2^31 + 1` the `u32 → i32` cast of `attempt - 1 = 2^31`
wraps to `-2^31`. -/
lemma powi_exponent_wrap_top :
    powi_exponent (2 ^ 31 + 1) = -(2 ^ 31 : Int) := by
  unfold powi_exponent as_i32
  norm_num

/-- With scenario A's numbers, the wrapped negative exponent drives the
base delay below one millisecond, so the truncated capped delay is 0. -/
lemma capped_delay_wrap_zero (c : RetryConfig) (h1 : c.initial_delay_ms = 1000)
    (h2 : c.max_delay_ms = 10000) (h3 : c.backoff_multiplier = 2) :
    capped_delay c (2 ^ 31 + 1) = 0 := by
  unfold capped_delay
  rw [powi_exponent_wrap_top, h1, h2, h3]
  rw [show ((1000 : Nat) : ℚ) = 1000 from by norm_num,
    show ((10000 : Nat) : ℚ) = 10000 from by norm_num]
  have hpow : (2 : ℚ) ^ (-(2 ^ 31 : Int)) = ((2 : ℚ) ^ (2 ^ 31 : Nat))⁻¹ := by
    rw [show (-(2 ^ 31 : Int)) = -((2 ^ 31 : Nat) : Int) by norm_num, zpow_neg,
      zpow_natCast]
  rw [hpow]
  have hge : (1024 : ℚ) ≤ (2 : ℚ) ^ (2 ^ 31 : Nat) := by
    calc (1024 : ℚ) = 2 ^ (10 : Nat) := by norm_num
      _ ≤ 2 ^ (2 ^ 31 : Nat) := pow_le_pow_right (by norm_num) (by norm_num)
  revert hge
  generalize ((2 : ℚ) ^ (2 ^ 31 : Nat)) = X
  intro hge
  have hinv : X⁻¹ ≤ (1024 : ℚ)⁻¹ := inv_le_inv_of_le (by norm_num) hge
  have hmul : (1000 : ℚ) * X⁻¹ ≤ 1000 * (1024 : ℚ)⁻¹ :=
    mul_le_mul_of_nonneg_left hinv (by norm_num)
  have hlt1 : (1000 : ℚ) * X⁻¹ < 1 := by
    have hq : (1000 : ℚ) * (1024 : ℚ)⁻¹ < 1 := by norm_num
    linarith
  have hxpos : (0 : ℚ) < X⁻¹ := inv_pos.mpr (by linarith)
  have hmin : min ((1000 : ℚ) * X⁻¹) ((10000 : ℚ)) = (1000 : ℚ) * X⁻¹ :=
    min_eq_left (by nlinarith)
  rw [hmin]
  exact Nat.floor_eq_zero.mpr hlt1

/-- With scenario A's numbers, the claimed formula — a real `2^(attempt-1)`
power — saturates at `max_delay` for `attempt = 2^31 + 1`. -/
lemma formula_at_wrap (c : RetryConfig) (h1 : c.initial_delay_ms = 1000)
    (h2 : c.max_delay_ms = 10000) (h3 : c.backoff_multiplier = 2) :
    (⌊min ((c.initial_delay_ms : ℚ) *
          c.backoff_multiplier ^ ((2 ^ 31 + 1 : Nat) - 1))
        ((c.max_delay_ms : ℚ))⌋₊ : Nat) = 10000 := by
  rw [h1, h2, h3]
  rw [show ((1000 : Nat) : ℚ) = 1000 from by norm_num,
    show ((10000 : Nat) : ℚ) = 10000 from by norm_num]
  rw [show (2 ^ 31 + 1 : Nat) - 1 = 2 ^ 31 by omega]
  have h16 : (16 : ℚ) ≤ (2 : ℚ) ^ (2 ^ 31 : Nat) := by
    calc (16 : ℚ) = 2 ^ (4 : Nat) := by norm_num
      _ ≤ 2 ^ (2 ^ 31 : Nat) := pow_le_pow_right (by norm_num) (by norm_num)
  revert h16
  generalize ((2 : ℚ) ^ (2 ^ 31 : Nat)) = X
  intro h16
  have hbig : (10000 : ℚ) ≤ 1000 * X := by linarith
  rw [min_eq_right hbig]
  norm_num

/-- Scenario A's configuration with jitter enabled. -/
def scenarioAJitter : RetryConfig :=
  { max_attempts := 3
    initial_delay_ms := 1000
    max_delay_ms := 10000
    backoff_multiplier := 2
    jitter := true }

end RetryPolicy

/-- Claim C5 counterexample: under scenario A's configuration, at
`attempt = 2^31 + 1` (a valid `u32`) the program returns 0 — the
`(attempt - 1) as i32` cast wraps to `-2^31` and the reciprocal power
truncates to nothing — while the claim's formula
`min(initial_delay · multiplier^(attempt-1), max_delay)` gives 10000, so
the claimed equation fails at this input. -/
theorem claim_C5_counterexample :
    RetryPolicy.calculate_delay RetryPolicy.scenarioA (2 ^ 31 + 1) 0 true = 0 ∧
    (⌊min ((RetryPolicy.scenarioA.initial_delay_ms : ℚ) *
          RetryPolicy.scenarioA.backoff_multiplier ^ ((2 ^ 31 + 1 : Nat) - 1))
        ((RetryPolicy.scenarioA.max_delay_ms : ℚ))⌋₊ : Nat) = 10000 ∧
    RetryPolicy.calculate_delay RetryPolicy.scenarioA (2 ^ 31 + 1) 0 true ≠
      ⌊min ((RetryPolicy.scenarioA.initial_delay_ms : ℚ) *
          RetryPolicy.scenarioA.backoff_multiplier ^ ((2 ^ 31 + 1 : Nat) - 1))
        ((RetryPolicy.scenarioA.max_delay_ms : ℚ))⌋₊ := by
  have hzero : RetryPolicy.capped_delay RetryPolicy.scenarioA (2 ^ 31 + 1) = 0 :=
    RetryPolicy.capped_delay_wrap_zero _ rfl rfl rfl
  have hform := RetryPolicy.formula_at_wrap RetryPolicy.scenarioA rfl rfl rfl
  have hcalc : RetryPolicy.calculate_delay RetryPolicy.scenarioA (2 ^ 31 + 1) 0 true
      = 0 := by
    have h0 : (2 ^ 31 + 1 : Nat) ≠ 0 := by norm_num
    have hj : RetryPolicy.scenarioA.jitter = false := rfl
    simp only [RetryPolicy.calculate_delay, h0, if_neg, hj, Bool.false_eq_true,
      if_false, ite_false]
    rw [hzero]
    simp
  refine ⟨hcalc, hform, ?_⟩
  rw [hcalc, hform]
  norm_num

/-- Claim C5 as amended: `calculate_delay 0 = 0` for every configuration
(jitter included); with jitter disabled every attempt in the
non-wrapping range `1 ≤ attempt ≤ 2^31` yields
`min(initial_delay · multiplier^(attempt-1), max_delay)` truncated
towards zero; and under scenario A's configuration the delays for
attempts 0..3 are 0, 1000, 2000 and 4000. -/
theorem claim_C5_amended (c : RetryConfig) (magnitude : Nat) (addSign : Bool) :
    RetryPolicy.calculate_delay c 0 magnitude addSign = 0 ∧
    (c.jitter = false → ∀ attempt, 1 ≤ attempt → attempt ≤ 2 ^ 31 →
      RetryPolicy.calculate_delay c attempt magnitude addSign =
        ⌊min ((c.initial_delay_ms : ℚ) * c.backoff_multiplier ^ (attempt - 1))
            ((c.max_delay_ms : ℚ))⌋₊) ∧
    RetryPolicy.calculate_delay RetryPolicy.scenarioA 0 magnitude addSign = 0 ∧
    RetryPolicy.calculate_delay RetryPolicy.scenarioA 1 magnitude addSign = 1000 ∧
    RetryPolicy.calculate_delay RetryPolicy.scenarioA 2 magnitude addSign = 2000 ∧
    RetryPolicy.calculate_delay RetryPolicy.scenarioA 3 magnitude addSign = 4000 := by
  have hgen : ∀ cfg : RetryConfig, cfg.jitter = false → ∀ attempt, 1 ≤ attempt →
      attempt ≤ 2 ^ 31 →
      RetryPolicy.calculate_delay cfg attempt magnitude addSign =
        ⌊min ((cfg.initial_delay_ms : ℚ) * cfg.backoff_multiplier ^ (attempt - 1))
            ((cfg.max_delay_ms : ℚ))⌋₊ := by
    intro cfg hj attempt ha hw
    have h0 : attempt ≠ 0 := by omega
    have hle := RetryPolicy.capped_delay_le_max cfg attempt
    rw [← RetryPolicy.capped_delay_eq_of_le cfg attempt hw]
    simp only [RetryPolicy.calculate_delay, h0, if_neg, hj, Bool.false_eq_true,
      if_false, ite_false]
    exact Nat.min_eq_left hle
  refine ⟨by simp [RetryPolicy.calculate_delay], hgen c, by
      simp [RetryPolicy.calculate_delay], ?_, ?_, ?_⟩
  · rw [hgen RetryPolicy.scenarioA rfl 1 (by omega) (by norm_num)]
    norm_num [RetryPolicy.scenarioA]
  · rw [hgen RetryPolicy.scenarioA rfl 2 (by omega) (by norm_num)]
    norm_num [RetryPolicy.scenarioA]
  · rw [hgen RetryPolicy.scenarioA rfl 3 (by omega) (by norm_num)]
    norm_num [RetryPolicy.scenarioA]

/-- Claim C5 (amended) witness: attempt 0 and, under scenario A's
configuration, attempt 2 with jitter disabled. -/
theorem claim_C5_amended_witness :
    RetryPolicy.calculate_delay RetryPolicy.scenarioA 0 0 true = 0 ∧
    RetryPolicy.calculate_delay RetryPolicy.scenarioA 2 0 true = 2000 := by
  constructor
  · exact (claim_C5_amended RetryPolicy.scenarioA 0 true).1
  · rw [(claim_C5_amended RetryPolicy.scenarioA 0 true).2.1 rfl 2 (by omega)
      (by norm_num)]
    norm_num [RetryPolicy.scenarioA]

namespace RetryPolicy

/-- The jitter algebra's bounds relative to the delay the code actually
capped: for jitter enabled and any admissible draw, the result lies in
`[0.8·capped, min(1.2·capped, max_delay)]`. -/
lemma jitter_bounds (c : RetryConfig) (attempt magnitude : Nat) (addSign : Bool)
    (hj : c.jitter = true) (ha : 1 ≤ attempt)
    (hm : magnitude ≤ RetryPolicy.jitter_range (RetryPolicy.capped_delay c attempt)) :
    (4 / 5 : ℚ) * (RetryPolicy.capped_delay c attempt) ≤
        ((RetryPolicy.calculate_delay c attempt magnitude addSign : Nat) : ℚ) ∧
    ((RetryPolicy.calculate_delay c attempt magnitude addSign : Nat) : ℚ) ≤
        (6 / 5 : ℚ) * (RetryPolicy.capped_delay c attempt) ∧
    RetryPolicy.calculate_delay c attempt magnitude addSign ≤ c.max_delay_ms := by
  have h0 : attempt ≠ 0 := by omega
  set base := RetryPolicy.capped_delay c attempt with hbase
  have hle : base ≤ c.max_delay_ms := RetryPolicy.capped_delay_le_max c attempt
  rw [RetryPolicy.jitter_range_eq] at hm
  have hmb : magnitude ≤ base := le_trans hm (Nat.div_le_self base 5)
  have hmq : (magnitude : ℚ) ≤ (base : ℚ) / 5 := by
    calc (magnitude : ℚ) ≤ ((base / 5 : Nat) : ℚ) := by exact_mod_cast hm
      _ ≤ (base : ℚ) / 5 := by exact_mod_cast Nat.cast_div_le
  have hd : RetryPolicy.calculate_delay c attempt magnitude addSign =
      min (RetryPolicy.add_jitter base magnitude addSign) c.max_delay_ms := by
    simp [RetryPolicy.calculate_delay, h0, hj]
  rw [hd]
  have hbq : (0 : ℚ) ≤ (base : ℚ) := Nat.cast_nonneg base
  cases addSign with
  | true =>
      have hadd : RetryPolicy.add_jitter base magnitude true = base + magnitude := by
        simp [RetryPolicy.add_jitter]
      rw [hadd]
      refine ⟨?_, ?_, min_le_right _ _⟩
      · have h1 : base ≤ min (base + magnitude) c.max_delay_ms :=
          le_min (Nat.le_add_right _ _) hle
        have h2 : (base : ℚ) ≤ ((min (base + magnitude) c.max_delay_ms : Nat) : ℚ) := by
          exact_mod_cast h1
        linarith
      · have h1 : min (base + magnitude) c.max_delay_ms ≤ base + magnitude :=
          min_le_left _ _
        have h2 : ((min (base + magnitude) c.max_delay_ms : Nat) : ℚ) ≤
            (base : ℚ) + (magnitude : ℚ) := by exact_mod_cast h1
        linarith
  | false =>
      have hsub : RetryPolicy.add_jitter base magnitude false = base - magnitude := by
        simp [RetryPolicy.add_jitter]
      rw [hsub]
      have hminq : min (base - magnitude) c.max_delay_ms = base - magnitude :=
        Nat.min_eq_left (le_trans (Nat.sub_le _ _) hle)
      rw [hminq]
      have hcast : ((base - magnitude : Nat) : ℚ) = (base : ℚ) - (magnitude : ℚ) :=
        Nat.cast_sub hmb
      refine ⟨?_, ?_, le_trans (Nat.sub_le _ _) hle⟩
      · rw [hcast]; linarith
      · rw [hcast]; linarith

end RetryPolicy

/-- Claim C6 counterexample: with jitter enabled under scenario A's
numbers, at `attempt = 2^31 + 1` the code's capped base is 0 — the only
admissible draw is magnitude 0 — so the program returns 0, yet the
claim's `base`, the formula
`min(initial_delay · multiplier^(attempt-1), max_delay)`, is 10000: the
claimed lower bound `0.8·base ≤ delay` fails at this input. -/
theorem claim_C6_counterexample :
    RetryPolicy.calculate_delay RetryPolicy.scenarioAJitter (2 ^ 31 + 1) 0 true
      = 0 ∧
    (⌊min ((RetryPolicy.scenarioAJitter.initial_delay_ms : ℚ) *
          RetryPolicy.scenarioAJitter.backoff_multiplier ^ ((2 ^ 31 + 1 : Nat) - 1))
        ((RetryPolicy.scenarioAJitter.max_delay_ms : ℚ))⌋₊ : Nat) = 10000 ∧
    ¬ ((4 / 5 : ℚ) *
        ((⌊min ((RetryPolicy.scenarioAJitter.initial_delay_ms : ℚ) *
            RetryPolicy.scenarioAJitter.backoff_multiplier ^ ((2 ^ 31 + 1 : Nat) - 1))
          ((RetryPolicy.scenarioAJitter.max_delay_ms : ℚ))⌋₊ : Nat) : ℚ) ≤
      ((RetryPolicy.calculate_delay RetryPolicy.scenarioAJitter
          (2 ^ 31 + 1) 0 true : Nat) : ℚ)) := by
  have hzero : RetryPolicy.capped_delay RetryPolicy.scenarioAJitter (2 ^ 31 + 1)
      = 0 := RetryPolicy.capped_delay_wrap_zero _ rfl rfl rfl
  have hform := RetryPolicy.formula_at_wrap RetryPolicy.scenarioAJitter rfl rfl rfl
  have hb := RetryPolicy.jitter_bounds RetryPolicy.scenarioAJitter (2 ^ 31 + 1)
    0 true rfl (by norm_num) (Nat.zero_le _)
  have h1 := hb.2.1
  rw [hzero] at h1
  have h2 : ((RetryPolicy.calculate_delay RetryPolicy.scenarioAJitter
      (2 ^ 31 + 1) 0 true : Nat) : ℚ) ≤ 0 := by simpa using h1
  have hcalc : RetryPolicy.calculate_delay RetryPolicy.scenarioAJitter
      (2 ^ 31 + 1) 0 true = 0 := by
    have h3 : ((RetryPolicy.calculate_delay RetryPolicy.scenarioAJitter
        (2 ^ 31 + 1) 0 true : Nat) : ℚ) = 0 :=
      le_antisymm h2 (Nat.cast_nonneg _)
    exact_mod_cast h3
  refine ⟨hcalc, hform, ?_⟩
  rw [hcalc, hform]
  norm_num

/-- Claim C6 as amended: with jitter enabled, for every attempt in the
non-wrapping range `1 ≤ attempt ≤ 2^31` and every admissible outcome of
the random draws, the computed delay lies within
`[0.8·base, min(1.2·base, max_delay)]`, where `base` is the un-jittered
capped delay, which in this range equals
`min(initial_delay · multiplier^(attempt-1), max_delay)` truncated; in
particular it never exceeds `max_delay_ms` and the subtracting branch
saturates at 0 rather than going negative. -/
theorem claim_C6_amended (c : RetryConfig) (attempt magnitude : Nat)
    (addSign : Bool) (hj : c.jitter = true) (ha : 1 ≤ attempt)
    (hw : attempt ≤ 2 ^ 31)
    (hm : magnitude ≤ RetryPolicy.jitter_range (RetryPolicy.capped_delay c attempt)) :
    (4 / 5 : ℚ) * (RetryPolicy.capped_delay c attempt) ≤
        ((RetryPolicy.calculate_delay c attempt magnitude addSign : Nat) : ℚ) ∧
    ((RetryPolicy.calculate_delay c attempt magnitude addSign : Nat) : ℚ) ≤
        (6 / 5 : ℚ) * (RetryPolicy.capped_delay c attempt) ∧
    RetryPolicy.calculate_delay c attempt magnitude addSign ≤ c.max_delay_ms ∧
    RetryPolicy.capped_delay c attempt =
      ⌊min ((c.initial_delay_ms : ℚ) * c.backoff_multiplier ^ (attempt - 1))
          ((c.max_delay_ms : ℚ))⌋₊ := by
  obtain ⟨h1, h2, h3⟩ :=
    RetryPolicy.jitter_bounds c attempt magnitude addSign hj ha hm
  exact ⟨h1, h2, h3, RetryPolicy.capped_delay_eq_of_le c attempt hw⟩

/-- Claim C6 (amended) witness: scenario A's configuration with jitter
switched on, attempt 2 (base 2000), a drawn magnitude of 100 and the
subtracting sign. -/
theorem claim_C6_amended_witness :
    (4 / 5 : ℚ) * (RetryPolicy.capped_delay RetryPolicy.scenarioAJitter 2) ≤
      ((RetryPolicy.calculate_delay RetryPolicy.scenarioAJitter 2 100 false : Nat) : ℚ) ∧
    ((RetryPolicy.calculate_delay RetryPolicy.scenarioAJitter 2 100 false : Nat) : ℚ) ≤
      (6 / 5 : ℚ) * (RetryPolicy.capped_delay RetryPolicy.scenarioAJitter 2) ∧
    RetryPolicy.calculate_delay RetryPolicy.scenarioAJitter 2 100 false ≤
      RetryPolicy.scenarioAJitter.max_delay_ms ∧
    RetryPolicy.capped_delay RetryPolicy.scenarioAJitter 2 =
      ⌊min ((RetryPolicy.scenarioAJitter.initial_delay_ms : ℚ) *
          RetryPolicy.scenarioAJitter.backoff_multiplier ^ ((2 : Nat) - 1))
        ((RetryPolicy.scenarioAJitter.max_delay_ms : ℚ))⌋₊ := by
  have hcap : RetryPolicy.capped_delay RetryPolicy.scenarioAJitter 2 = 2000 := by
    rw [RetryPolicy.capped_delay_eq_of_le _ 2 (by norm_num)]
    norm_num [RetryPolicy.scenarioAJitter]
  exact claim_C6_amended RetryPolicy.scenarioAJitter 2 100 false rfl (by omega)
    (by norm_num) (by rw [hcap, RetryPolicy.jitter_range_eq]; omega)

namespace Registry

lemma lookup_insert_self {α : Type} (q : Registry α) (k : String) (v : α) :
    lookup (insert q k v) k = some v := by
  simp [lookup, insert]

/-- Inserting a key leaves it with exactly one binding. -/
lemma keyCount_insert_self {α : Type} (q : Registry α) (k : String) (v : α) :
    keyCount (insert q k v) k = 1 := by
  simp [keyCount, insert, List.filter_filter]

/-- Inserting one key cannot grow the binding count of a different key. -/
lemma keyCount_insert_ne {α : Type} (q : Registry α) (k : String) (v : α)
    (tid : String) (h : tid ≠ k) :
    keyCount (insert q k v) tid ≤ keyCount q tid := by
  unfold keyCount insert
  rw [List.filter_cons_of_neg]
  · exact List.Sublist.length_le (List.Sublist.filter _ (List.filter_sublist q))
  · simp only [beq_iff_eq]
    exact fun hc => h hc.symm

/-- Overwriting a key is absorptive: the earlier binding disappears. -/
lemma insert_insert_same {α : Type} (q : Registry α) (k : String) (v1 v2 : α) :
    insert (insert q k v1) k v2 = (k, v2) :: List.filter (fun p => !(p.1 == k)) q := by
  simp [insert, List.filter_filter]

end Registry

namespace DeadLetterQueue

/-- Every store built by `add_entry` calls from `new()` binds each
transaction identity at most once. -/
lemma ofInserts_keyCount_le_one (es : List DLQEntry) (tid : String) :
    Registry.keyCount (ofInserts es) tid ≤ 1 := by
  suffices h : ∀ q : DeadLetterQueue, (∀ t, Registry.keyCount q t ≤ 1) →
      ∀ t, Registry.keyCount (es.foldl add_entry q) t ≤ 1 by
    exact h empty (fun t => by simp [Registry.keyCount, empty]) tid
  induction es with
  | nil => intro q hq t; exact hq t
  | cons e rest ih =>
      intro q hq t
      refine ih (add_entry q e) ?_ t
      intro t1
      by_cases ht : t1 = e.transaction_id
      · subst ht
        exact le_of_eq (Registry.keyCount_insert_self q e.transaction_id e)
      · exact le_trans (Registry.keyCount_insert_ne q e.transaction_id e t1 ht)
          (hq t1)

end DeadLetterQueue

/-- Claim C9: inserting a second entry under the same transaction
identity replaces the first — `get_entry` then returns the second
entry — and `count` stays exactly what it was after the first insert;
moreover every store reachable by `add_entry` calls holds at most one
live entry per transaction identity. -/
theorem claim_C9 (q : DeadLetterQueue) (e1 e2 : DLQEntry)
    (h : e2.transaction_id = e1.transaction_id) :
    DeadLetterQueue.get_entry
        (DeadLetterQueue.add_entry (DeadLetterQueue.add_entry q e1) e2)
        e1.transaction_id = some e2 ∧
    DeadLetterQueue.count
        (DeadLetterQueue.add_entry (DeadLetterQueue.add_entry q e1) e2) =
      DeadLetterQueue.count (DeadLetterQueue.add_entry q e1) ∧
    (∀ es : List DLQEntry, ∀ tid,
      Registry.keyCount (DeadLetterQueue.ofInserts es) tid ≤ 1) := by
  refine ⟨?_, ?_, fun es tid => DeadLetterQueue.ofInserts_keyCount_le_one es tid⟩
  · show Registry.lookup
      (Registry.insert (Registry.insert q e1.transaction_id e1)
        e2.transaction_id e2) e1.transaction_id = some e2
    rw [← h]
    exact Registry.lookup_insert_self _ _ _
  · show (Registry.insert (Registry.insert q e1.transaction_id e1)
        e2.transaction_id e2).length =
      (Registry.insert q e1.transaction_id e1).length
    rw [h, Registry.insert_insert_same]
    simp [Registry.insert]

/-- Claim C9 witness: two entries under identity `"t"` on the empty
store. -/
theorem claim_C9_witness :
    DeadLetterQueue.get_entry
        (DeadLetterQueue.add_entry
          (DeadLetterQueue.add_entry DeadLetterQueue.empty
            { transaction_id := "t", psp_name := "stripe", payload := [1],
              attempt_count := 3, last_error := "timeout", timestamp_ms := 10 })
          { transaction_id := "t", psp_name := "adyen", payload := [2],
            attempt_count := 5, last_error := "refused", timestamp_ms := 20 })
        "t" = some
          { transaction_id := "t", psp_name := "adyen", payload := [2],
            attempt_count := 5, last_error := "refused", timestamp_ms := 20 } ∧
    DeadLetterQueue.count
        (DeadLetterQueue.add_entry
          (DeadLetterQueue.add_entry DeadLetterQueue.empty
            { transaction_id := "t", psp_name := "stripe", payload := [1],
              attempt_count := 3, last_error := "timeout", timestamp_ms := 10 })
          { transaction_id := "t", psp_name := "adyen", payload := [2],
            attempt_count := 5, last_error := "refused", timestamp_ms := 20 }) =
      DeadLetterQueue.count
        (DeadLetterQueue.add_entry DeadLetterQueue.empty
          { transaction_id := "t", psp_name := "stripe", payload := [1],
            attempt_count := 3, last_error := "timeout", timestamp_ms := 10 }) := by
  have h := claim_C9 DeadLetterQueue.empty
    { transaction_id := "t", psp_name := "stripe", payload := [1],
      attempt_count := 3, last_error := "timeout", timestamp_ms := 10 }
    { transaction_id := "t", psp_name := "adyen", payload := [2],
      attempt_count := 5, last_error := "refused", timestamp_ms := 20 } rfl
  exact ⟨h.1, h.2.1⟩

/-- Claim C7: a `ScheduleRetry` call at `attempt_number = max_attempts`
for a transaction not yet dead-lettered, when the provider circuit lets
the call proceed, dead-letters the transaction: the response is
unscheduled with the exhaustion message and a zero next-retry time, the
store afterwards holds exactly one entry for the identity — built from
the request's payload, attempt count and the exhaustion error at the
current time — and the in-flight retry states are untouched. -/
theorem claim_C7 (rc : RetryConfig) (σ : ServiceState) (req : RetryRequest)
    (now magnitude : Nat) (addSign : Bool)
    (hatt : req.attempt_number = rc.max_attempts)
    (hdlq : DeadLetterQueue.containsTid σ.dlq req.transaction_id = false)
    (hcb : (CircuitBreaker.can_proceed
        (RetryEngineService.breaker_for σ req.psp_name) now).1 = true) :
    (RetryEngineService.schedule_retry rc σ req now magnitude addSign).1.scheduled
        = false ∧
    (RetryEngineService.schedule_retry rc σ req now magnitude addSign).1.message
        = "Max retries exceeded, moved to DLQ" ∧
    (RetryEngineService.schedule_retry rc σ req now magnitude addSign).1.next_retry_at_ms
        = 0 ∧
    DeadLetterQueue.get_entry
        (RetryEngineService.schedule_retry rc σ req now magnitude addSign).2.dlq
        req.transaction_id = some
      { transaction_id := req.transaction_id
        psp_name := req.psp_name
        payload := req.payload
        attempt_count := req.attempt_number
        last_error := "Max retry attempts exceeded"
        timestamp_ms := now } ∧
    Registry.keyCount
        (RetryEngineService.schedule_retry rc σ req now magnitude addSign).2.dlq
        req.transaction_id = 1 ∧
    (RetryEngineService.schedule_retry rc σ req now magnitude addSign).2.retry_states
        = σ.retry_states := by
  have hsr : RetryPolicy.should_retry rc req.attempt_number = false := by
    simp [RetryPolicy.should_retry, hatt]
  unfold RetryEngineService.schedule_retry
  simp only [hdlq, Bool.false_eq_true, if_false, hcb, Bool.not_true, hsr,
    Bool.not_false, if_true, ite_false, ite_true]
  exact ⟨trivial, trivial, trivial, Registry.lookup_insert_self _ _ _,
    Registry.keyCount_insert_self _ _ _, trivial⟩

/-- Claim C7 witness: a fresh service under scenario A's configuration,
asked to schedule attempt 3 of 3 for a new transaction. -/
theorem claim_C7_witness :
    (RetryEngineService.schedule_retry RetryPolicy.scenarioA
        RetryEngineService.initState
        { transaction_id := "t1", psp_name := "stripe", attempt_number := 3,
          payload := [7, 8] } 500 0 true).1.scheduled = false ∧
    (RetryEngineService.schedule_retry RetryPolicy.scenarioA
        RetryEngineService.initState
        { transaction_id := "t1", psp_name := "stripe", attempt_number := 3,
          payload := [7, 8] } 500 0 true).1.message
      = "Max retries exceeded, moved to DLQ" ∧
    DeadLetterQueue.get_entry
        (RetryEngineService.schedule_retry RetryPolicy.scenarioA
          RetryEngineService.initState
          { transaction_id := "t1", psp_name := "stripe", attempt_number := 3,
            payload := [7, 8] } 500 0 true).2.dlq "t1" = some
      { transaction_id := "t1", psp_name := "stripe", payload := [7, 8],
        attempt_count := 3, last_error := "Max retry attempts exceeded",
        timestamp_ms := 500 } ∧
    Registry.keyCount
        (RetryEngineService.schedule_retry RetryPolicy.scenarioA
          RetryEngineService.initState
          { transaction_id := "t1", psp_name := "stripe", attempt_number := 3,
            payload := [7, 8] } 500 0 true).2.dlq "t1" = 1 ∧
    (RetryEngineService.schedule_retry RetryPolicy.scenarioA
        RetryEngineService.initState
        { transaction_id := "t1", psp_name := "stripe", attempt_number := 3,
          payload := [7, 8] } 500 0 true).2.retry_states = [] := by
  have h := claim_C7 RetryPolicy.scenarioA RetryEngineService.initState
    { transaction_id := "t1", psp_name := "stripe", attempt_number := 3,
      payload := [7, 8] } 500 0 true rfl rfl rfl
  exact ⟨h.1, h.2.1, h.2.2.2.1, h.2.2.2.2.1, h.2.2.2.2.2⟩

/-- Claim C8: a `ScheduleRetry` call for a transaction already present in
the dead-letter store answers `scheduled = false` with the
already-dead-lettered message and leaves the whole service state —
breaker registry, every breaker, dead-letter store and in-flight retry
states — exactly as it was. -/
theorem claim_C8 (rc : RetryConfig) (σ : ServiceState) (req : RetryRequest)
    (now magnitude : Nat) (addSign : Bool)
    (h : DeadLetterQueue.containsTid σ.dlq req.transaction_id = true) :
    (RetryEngineService.schedule_retry rc σ req now magnitude addSign).1.scheduled
        = false ∧
    (RetryEngineService.schedule_retry rc σ req now magnitude addSign).1.message
        = "Transaction already in dead letter queue" ∧
    (RetryEngineService.schedule_retry rc σ req now magnitude addSign).2 = σ := by
  unfold RetryEngineService.schedule_retry
  simp [h]

/-- Claim C8 witness: a service whose store already dead-letters `"t1"`,
with an existing breaker for the provider. -/
theorem claim_C8_witness :
    (RetryEngineService.schedule_retry RetryPolicy.scenarioA
        { circuit_breakers := [("stripe", CircuitBreakerState.init)]
          dlq := [("t1",
            { transaction_id := "t1", psp_name := "stripe", payload := [1],
              attempt_count := 3, last_error := "exhausted", timestamp_ms := 9 })]
          retry_states := [] }
        { transaction_id := "t1", psp_name := "stripe", attempt_number := 1,
          payload := [4] } 700 0 true).1.scheduled = false ∧
    (RetryEngineService.schedule_retry RetryPolicy.scenarioA
        { circuit_breakers := [("stripe", CircuitBreakerState.init)]
          dlq := [("t1",
            { transaction_id := "t1", psp_name := "stripe", payload := [1],
              attempt_count := 3, last_error := "exhausted", timestamp_ms := 9 })]
          retry_states := [] }
        { transaction_id := "t1", psp_name := "stripe", attempt_number := 1,
          payload := [4] } 700 0 true).1.message
      = "Transaction already in dead letter queue" ∧
    (RetryEngineService.schedule_retry RetryPolicy.scenarioA
        { circuit_breakers := [("stripe", CircuitBreakerState.init)]
          dlq := [("t1",
            { transaction_id := "t1", psp_name := "stripe", payload := [1],
              attempt_count := 3, last_error := "exhausted", timestamp_ms := 9 })]
          retry_states := [] }
        { transaction_id := "t1", psp_name := "stripe", attempt_number := 1,
          payload := [4] } 700 0 true).2 =
      { circuit_breakers := [("stripe", CircuitBreakerState.init)]
        dlq := [("t1",
          { transaction_id := "t1", psp_name := "stripe", payload := [1],
            attempt_count := 3, last_error := "exhausted", timestamp_ms := 9 })]
        retry_states := [] } :=
  claim_C8 RetryPolicy.scenarioA
    { circuit_breakers := [("stripe", CircuitBreakerState.init)]
      dlq := [("t1",
        { transaction_id := "t1", psp_name := "stripe", payload := [1],
          attempt_count := 3, last_error := "exhausted", timestamp_ms := 9 })]
      retry_states := [] }
    { transaction_id := "t1", psp_name := "stripe", attempt_number := 1,
      payload := [4] } 700 0 true rfl

end RetryEngine
